import Mathlib

/-!
Verification of the mediChat booking engine: a shallow embedding of the
multi-step appointment-booking state machine, its slot-availability
computation and its appointment repository, translated from the Python
sources (`test.py`, `handle_booking.py`, `test2.py`), together with
theorems settling the specified properties.

Conventions of the embedding:
* Python dicts that hold entities keyed by id become association lists
  `List (String × α)`; iteration order of the list models dict insertion
  order, and key uniqueness holds for all states built by the modelled
  operations.
* The wall clock is external: everywhere the source calls
  `datetime.now()` and `strftime` the embedding takes the produced string
  (or a day-offset-to-date function `dateOf`) as a parameter, and the
  "appointment lies in the past" comparison is an oracle boolean.
* Google-Sheets persistence calls are external I/O; whether they raise is
  modelled by a `sheetOk : Bool` parameter where the outcome matters.
-/

set_option maxRecDepth 10000

/-- Apostrophe character (U+0027), used to assemble the source's message
strings without writing the character in a literal. -/
def aq : String := String.mk [Char.ofNat 39]

/-- Substring test on character lists: models the Python `needle in hay`
operator on strings. -/
def isSubstringL (needle : List Char) : List Char → Bool
  | [] => needle.isEmpty
  | c :: t => needle.isPrefixOf (c :: t) || isSubstringL needle t

/-- Python `needle in hay` for strings. -/
def strContains (hay needle : String) : Bool :=
  isSubstringL needle.toList hay.toList

/-- Python `\s` membership for the ASCII whitespace in play. -/
def isPySpace (c : Char) : Bool :=
  c == ' ' || c == '\t' || c == '\n' || c == '\r'

/-- Python `str.upper()` on the ASCII strings in play: character-wise
uppercasing (`String.toUpper` itself does not reduce in the kernel, so
the embedding uses this equivalent list-based form). -/
def pyUpper (s : String) : String := String.mk (s.data.map Char.toUpper)

/-- Python `str.lower()`: character-wise lowercasing. -/
def pyLower (s : String) : String := String.mk (s.data.map Char.toLower)

/-- Python `str.strip()`: drop leading and trailing whitespace. -/
def pyStrip (s : String) : String :=
  String.mk (((s.data.dropWhile isPySpace).reverse.dropWhile isPySpace).reverse)

/-- Python `s.startswith(pre)`. -/
def pyStartsWith (s pre : String) : Bool := pre.data.isPrefixOf s.data

/-- Code-point comparison of strings (Python `<=` on `str`). -/
def charListLe : List Char → List Char → Bool
  | [], _ => true
  | _ :: _, [] => false
  | a :: as, b :: bs =>
    if a.val < b.val then true
    else if b.val < a.val then false
    else charListLe as bs

/-- Python `len(s.split('-'))`: one more than the number of dashes. -/
def dashParts (s : String) : Nat :=
  (s.data.filter (fun c => c == '-')).length + 1

/-- First-match association-list lookup: models Python `dict[key]` /
`dict.get(key)` (keys are unique in every state the operations build). -/
def alookup {α : Type} : List (String × α) → String → Option α
  | [], _ => none
  | p :: rest, key => if key = p.1 then some p.2 else alookup rest key

/-- Python `key in dict`. -/
def containsKey {α : Type} (m : List (String × α)) (k : String) : Bool :=
  (alookup m k).isSome

/-- An appointment record, with the fields written by the booking confirm
step of `_handle_booking` and mutated by `_cancel_appointment` /
`_reschedule_appointment`. -/
structure Appointment where
  doctor_id : String
  date : String
  time : String
  status : String
  patient_id : String := ""
  reason : String := ""
  name : String := ""
  phone : String := ""
  specialty : String := ""
  rescheduled : Bool := false
  rescheduled_at : Option String := none
  cancelled_at : Option String := none
deriving DecidableEq

/-- The appointments table `database.data["appointments"]`. -/
abbrev ApptMap := List (String × Appointment)

/-- Doctor reference data `database.data["doctors"]` entry. -/
structure DocInfo where
  name : String
  specialty : String
deriving DecidableEq

/-- The doctors table. -/
abbrev DocMap := List (String × DocInfo)

/-- Morning slot catalog of `MedicalChatbot._get_available_slots`
(test.py). -/
def morning_slots : List String :=
  ["10:45-11:00 AM", "11:00-11:15 AM", "11:15-11:30 AM"]

/-- Evening slot catalog of `MedicalChatbot._get_available_slots`
(test.py). -/
def evening_slots : List String :=
  ["1:45-2:00 PM", "2:00-2:15 PM", "2:15-2:30 PM"]

/-- The slot list selected by the time-of-day preference (test.py
`_get_available_slots`): `"morning"` and `"evening"` pick the
corresponding sublist, anything else (including no preference) the
concatenation. -/
def slotCatalog (pref : Option String) : List String :=
  match pref with
  | some "morning" => morning_slots
  | some "evening" => evening_slots
  | _ => morning_slots ++ evening_slots

/-- Times of every appointment of this doctor on this date whose status is
not `"cancelled"`, in table order (the `booked_times` accumulation loop of
`_get_available_slots`). -/
def bookedTimes (appts : ApptMap) (doctor_id date : String) : List String :=
  (appts.filter (fun p =>
    p.2.doctor_id == doctor_id && p.2.date == date &&
      p.2.status != "cancelled")).map (fun p => p.2.time)

/-- Model of `MedicalChatbot._get_available_slots` (test.py, lines 1413-1438): the
preference-selected catalog minus the booked times, preserving catalog
order. -/
def get_available_slots (appts : ApptMap) (doctor_id date : String)
    (pref : Option String) : List String :=
  (slotCatalog pref).filter
    (fun s => !((bookedTimes appts doctor_id date).contains s))

/-- One in-place status change to `"cancelled"` (the mutation
`appointment["status"] = "cancelled"` of `_cancel_appointment`). -/
def cancelEntry (id ts : String) (p : String × Appointment) :
    String × Appointment :=
  if p.1 = id then
    (p.1, { p.2 with status := "cancelled", cancelled_at := some ts })
  else p

/-- A history of bookings and cancellations, as the booking flow performs
them: a booking appends a confirmed appointment whose time was picked from
the available slots of the state it was booked against, and a cancellation
flips one status to `"cancelled"` in place (over-approximating
`_cancel_appointment`, which additionally refuses missing, already
cancelled and past appointments). -/
inductive BookCancelHistory : ApptMap → Prop
  | nil : BookCancelHistory []
  | book (s : ApptMap) (id : String) (a : Appointment) :
      BookCancelHistory s →
      a.time ∈ get_available_slots s a.doctor_id a.date none →
      a.status = "confirmed" →
      BookCancelHistory (s ++ [(id, a)])
  | cancel (s : ApptMap) (id ts : String) :
      BookCancelHistory s →
      BookCancelHistory (s.map (cancelEntry id ts))

/-- Loop body of `MedicalChatbot._get_available_dates` (test.py, lines
1398-1410): scan offsets one day at a time, collect qualifying dates,
stop once three are collected; `n` is the number of offsets left. -/
def gadAux (appts : ApptMap) (doctor_id : String) (dateOf : Nat → String) :
    Nat → Nat → List String → List String
  | _, 0, acc => acc
  | i, n + 1, acc =>
    if !(get_available_slots appts doctor_id (dateOf i) none).isEmpty then
      let acc2 := acc ++ [dateOf i]
      if 3 ≤ acc2.length then acc2 else gadAux appts doctor_id dateOf (i + 1) n acc2
    else gadAux appts doctor_id dateOf (i + 1) n acc

/-- Model of `MedicalChatbot._get_available_dates` (test.py): up to three dates with
at least one available slot within the next `days_to_check` days, starting
one day ahead.  `dateOf i` stands for
`(datetime.now() + timedelta(days=i)).strftime("%Y-%m-%d")`. -/
def get_available_dates (appts : ApptMap) (doctor_id : String)
    (days_to_check : Nat) (dateOf : Nat → String) : List String :=
  gadAux appts doctor_id dateOf 1 days_to_check []

/-- A raw field dict, as stored per appointment row by the repository
(`MedicalDatabase`). -/
abbrev FieldMap := List (String × String)

/-- Model of `MedicalDatabase.book_appointment` (test.py, lines 257-301).  The two
validation checks run before any mutation; then the in-memory cache is
updated and the Google-Sheet write happens, whose failure (`sheetOk =
false`) is caught by the `except` and turned into `False` after the cache
was already mutated. -/
def book_appointment (m : List (String × FieldMap)) (appointment_id : String)
    (appointment_data : FieldMap) (sheetOk : Bool) :
    Bool × List (String × FieldMap) :=
  if appointment_id = "" || appointment_data = [] then (false, m)
  else if containsKey m appointment_id then (false, m)
  else
    let m2 := m ++ [(appointment_id, appointment_data)]
    (sheetOk, m2)

/-- The per-conversation booking dict `MedicalChatMemory.booking_state`.
Each field models one key the booking flow writes; an absent key is `none`
(or the empty list / `false`). -/
structure BookingState where
  in_progress : Bool := false
  step : Option String := none
  started_at : Option String := none
  specialty_options : List (String × String) := []
  available_doctors : DocMap := []
  selected_specialty : Option String := none
  doctor_options : List (String × String) := []
  date_options : List (String × String) := []
  doctor_id : Option String := none
  date : Option String := none
  available_morning : List String := []
  available_evening : List String := []
  time_preference : Option String := none
  time : Option String := none
  name : Option String := none
  phone : Option String := none
  reason : Option String := none
  original_appointment_id : Option String := none
  available_dates : List String := []
  time_preference_options : List String := []
  available_slots : List String := []
deriving DecidableEq

/-- The empty booking dict `{}`. -/
def emptyBookingState : BookingState := {}

/-- Model of `MedicalChatMemory` (test.py, lines 362-412): booking state, the
active-booking flag and the patient id under construction. -/
structure MedicalChatMemory where
  booking_state : BookingState := {}
  is_booking_active : Bool := false
  current_patient_id : Option String := none
deriving DecidableEq

/-- Model of `MedicalChatMemory.clear_booking_state`. -/
def clear_booking_state (mem : MedicalChatMemory) : MedicalChatMemory :=
  { mem with booking_state := {}, is_booking_active := false }

/-- Model of `MedicalChatMemory.start_booking_flow`: replaces the booking dict with
a fresh one and raises the flag; `ts` is `datetime.now().isoformat()`. -/
def start_booking_flow (ts : String) (mem : MedicalChatMemory) :
    MedicalChatMemory :=
  { mem with
      booking_state :=
        { in_progress := true, step := some "select_doctor",
          started_at := some ts },
      is_booking_active := true }

/-- Model of `MedicalChatMemory.clear_memory` (used by `reset_conversation`). -/
def clear_memory (mem : MedicalChatMemory) : MedicalChatMemory :=
  { mem with
      booking_state := {},
      is_booking_active := false,
      current_patient_id := none }

/-- The single-letter choice code assigned to position `i`:
`chr(65 + i)`. -/
def letterFor (i : Nat) : String := String.mk [Char.ofNat (65 + i)]

/-- The option dict `{chr(65 + i): value for i, value in
enumerate(values)}`, with `off` the running index. -/
def buildOptions (off : Nat) : List String → List (String × String)
  | [] => []
  | v :: vs => (letterFor off, v) :: buildOptions (off + 1) vs

/-- Resolution of raw user text against an option dict, as the
`select_specialty` branch of `_handle_booking` does it
(handle_booking.py, lines 146-162): trim-and-uppercase the input and look
it up as a letter key; failing that, take the first option whose display
text occurs case-insensitively as a substring of the input. -/
def resolveOption (options : List (String × String)) (input_text : String) :
    Option String :=
  match alookup options (pyUpper (pyStrip input_text)) with
  | some v => some v
  | none =>
    (options.find?
      (fun p => strContains (pyLower input_text) (pyLower p.2))).map
      (fun p => p.2)

/-- The rendered `"A. value"` option lines, joined by newlines. -/
def renderOptionLines (options : List (String × String)) : String :=
  String.intercalate "\n" (options.map (fun p => p.1 ++ ". " ++ p.2))

/-- Insertion of a string into a sorted list (ascending). -/
def insertSorted (x : String) : List String → List String
  | [] => [x]
  | y :: ys => if charListLe x.data y.data then x :: y :: ys else y :: insertSorted x ys

/-- Ascending insertion sort: models Python `sorted` on strings. -/
def sortStrings : List String → List String
  | [] => []
  | x :: xs => insertSorted x (sortStrings xs)

/-- Python `sorted(set(l))`: the distinct elements in ascending order. -/
def sortedDedup (l : List String) : List String := sortStrings l.dedup

/-- The slot catalog of the handle_booking.py variant, scanned by the
entry step and the `select_date` step. -/
def handleCatalog : List String :=
  ["9:00 AM", "10:00 AM", "11:00 AM", "1:00 PM", "2:00 PM", "3:00 PM"]

/-- The morning part of `handleCatalog` (select_date branch). -/
def handleMorning : List String := ["9:00 AM", "10:00 AM", "11:00 AM"]

/-- The evening part of `handleCatalog` (select_date branch). -/
def handleEvening : List String := ["1:00 PM", "2:00 PM", "3:00 PM"]

/-- The `is_booked` scan of `_handle_booking` (handle_booking.py, entry
and select_date branches) and the final availability re-check of its
confirm branch (lines 561-566): some appointment of this doctor at this
date and time is not cancelled. -/
def slotBooked (appts : ApptMap) (doctor_id date time : String) : Bool :=
  appts.any (fun p =>
    p.2.doctor_id == doctor_id && p.2.date == date &&
      p.2.time == time && p.2.status != "cancelled")

/-- Entry-step availability test for one doctor (handle_booking.py, lines
23-46): some day in the next 14 has some catalog slot not booked. -/
def doctorHasSlots (appts : ApptMap) (dateOf : Nat → String)
    (doctor_id : String) : Bool :=
  (List.range' 1 14).any (fun off =>
    handleCatalog.any (fun slot => !slotBooked appts doctor_id (dateOf off) slot))

/-- The `available_doctors` dict built by the entry step, in doctors-table
order. -/
def availableDoctors (doctors : DocMap) (appts : ApptMap)
    (dateOf : Nat → String) : DocMap :=
  doctors.filter (fun p => doctorHasSlots appts dateOf p.1)

/-- The no-availability apology of the entry step. -/
def noAvailabilityApology : String :=
  "We" ++ aq ++ "re sorry, but all doctors are fully booked at this time. Please try again later or contact our office directly for assistance."

/-- The entry step of `_handle_booking` (handle_booking.py, lines 4-68):
clear any stale state, start a fresh flow, scan for doctors with
availability, and either apologize (no specialties) or store the specialty
options and prompt.  Note the apology return happens after
`start_booking_flow` without a further clear. -/
def bookingEntry (doctors : DocMap) (appts : ApptMap) (dateOf : Nat → String)
    (ts : String) (mem : MedicalChatMemory) : String × MedicalChatMemory :=
  let mem1 := start_booking_flow ts (clear_booking_state mem)
  let avail := availableDoctors doctors appts dateOf
  let specialties := sortedDedup (avail.map (fun p => p.2.specialty))
  if specialties = [] then (noAvailabilityApology, mem1)
  else
    let specialty_options := buildOptions 0 specialties
    let mem2 :=
      { mem1 with booking_state :=
        { mem1.booking_state with
            specialty_options := specialty_options,
            step := some "select_specialty",
            available_doctors := avail } }
    ("Let" ++ aq ++ "s book your appointment. First, please select a medical specialty by typing the corresponding letter:\n\n"
       ++ renderOptionLines specialty_options, mem2)

/-- The booking keywords of the entry trigger. -/
def bookingKeywords : List String := ["book", "appointment", "schedule", "see a doctor"]

/-- The entry trigger of `_handle_booking`: the exact token `"start"` or
any booking keyword contained in the lowered message. -/
def isBookingStart (input_text : String) : Bool :=
  pyLower input_text == "start" ||
    bookingKeywords.any (fun k => strContains (pyLower input_text) k)

/-- The `select_specialty` retry prompt of `_handle_booking`
(handle_booking.py, lines 193-200), re-rendered from the stored options. -/
def specialtyRetryPrompt (options : List (String × String)) : String :=
  "I couldn" ++ aq ++ "t identify which specialty you" ++ aq ++ "d like. Please select from the options below by entering the letter:\n\n"
    ++ renderOptionLines options

/-- The `select_specialty` branch of `_handle_booking` (handle_booking.py,
lines 146-200): resolve the input against the stored specialty options; on
success filter the stored available doctors to the specialty, index them
as doctor options and advance to `select_doctor`; on failure re-render the
stored options unchanged. -/
def selectSpecialtyStep (mem : MedicalChatMemory) (input_text : String) :
    String × MedicalChatMemory :=
  let bs := mem.booking_state
  match resolveOption bs.specialty_options input_text with
  | some selected =>
    let filtered := bs.available_doctors.filter
      (fun p => p.2.specialty == selected)
    if filtered = [] then
      ("Sorry, we currently don" ++ aq ++ "t have any doctors available in "
         ++ selected ++ ". Please select another specialty.", mem)
    else
      let options := buildOptions 0 (filtered.map (fun p => p.1))
      let mem2 :=
        { mem with booking_state :=
          { bs with
              selected_specialty := some selected,
              doctor_options := options,
              step := some "select_doctor" } }
      let lines := options.map (fun p =>
        match alookup filtered p.2 with
        | some d => p.1 ++ ". " ++ d.name ++ " (" ++ d.specialty ++ ")"
        | none => p.1 ++ ". ")
      ("Great! You" ++ aq ++ "ve selected " ++ selected
         ++ ". Please select a doctor by typing the corresponding letter:\n\n"
         ++ String.intercalate "\n" lines, mem2)
  | none => (specialtyRetryPrompt bs.specialty_options, mem)

/-- One rendered date-option line of the `select_date` branch:
`prettyDate` stands for the `strptime`/`strftime` pretty-printing of the
standard library, returning `none` when parsing raises. -/
def dateLine (prettyDate : String → Option String)
    (p : String × String) : String :=
  match prettyDate p.2 with
  | some f => p.1 ++ ". " ++ f ++ " (" ++ p.2 ++ ")"
  | none => p.1 ++ ". " ++ p.2

/-- The rendered date-option list of the `select_date` branch. -/
def renderDateOptions (prettyDate : String → Option String)
    (date_options : List (String × String)) : String :=
  String.intercalate "\n" (date_options.map (dateLine prettyDate))

/-- Success continuation of the `select_date` branch (handle_booking.py,
lines 324-381): store the chosen date and the morning/evening
availability, then either report no slots, ask for a preference, or jump
straight to `select_time` with the only non-empty half. -/
def dateChosen (appts : ApptMap) (doctor_id doctor_name : String)
    (mem : MedicalChatMemory) (selected_date : String) :
    String × MedicalChatMemory :=
  let available_morning := handleMorning.filter
    (fun t => !slotBooked appts doctor_id selected_date t)
  let available_evening := handleEvening.filter
    (fun t => !slotBooked appts doctor_id selected_date t)
  let bs1 := { mem.booking_state with
    date := some selected_date,
    available_morning := available_morning,
    available_evening := available_evening }
  let mem1 := { mem with booking_state := bs1 }
  if available_morning = [] ∧ available_evening = [] then
    ("I apologize, but there are no available time slots for Dr. "
       ++ doctor_name ++ " on " ++ selected_date
       ++ ". Please select another date.", mem1)
  else if available_morning ≠ [] ∧ available_evening ≠ [] then
    ("For your appointment with Dr. " ++ doctor_name ++ " on "
       ++ selected_date
       ++ ", do you prefer a morning or evening slot? Please type "
       ++ aq ++ "morning" ++ aq ++ " or " ++ aq ++ "evening" ++ aq ++ ".",
     { mem1 with booking_state :=
       { bs1 with step := some "select_time_preference" } })
  else if available_morning ≠ [] then
    ("For " ++ selected_date ++ " with Dr. " ++ doctor_name
       ++ ", we have the following morning slots available:" ++ "\n- "
       ++ String.intercalate "\n- " available_morning
       ++ "\n\nWhat time works for you?",
     { mem1 with booking_state :=
       { bs1 with time_preference := some "morning",
                  step := some "select_time" } })
  else
    ("For " ++ selected_date ++ " with Dr. " ++ doctor_name
       ++ ", we have the following evening slots available:" ++ "\n- "
       ++ String.intercalate "\n- " available_evening
       ++ "\n\nWhat time works for you?",
     { mem1 with booking_state :=
       { bs1 with time_preference := some "evening",
                  step := some "select_time" } })

/-- Doctor-name lookup `database.data["doctors"][doctor_id]["name"]`
(the select_date branch is reached only with a stored doctor id, so the
default is unreachable there). -/
def doctorNameOf (doctors : DocMap) (doctor_id : String) : String :=
  match alookup doctors doctor_id with
  | some d => d.name
  | none => ""

/-- The unlisted-date rejection reply of the `select_date` branch
(handle_booking.py, line 322). -/
def unlistedDateReply (prettyDate : String → Option String)
    (doctor_name entered_date : String)
    (date_options : List (String × String)) : String :=
  "I" ++ aq ++ "m sorry, but " ++ entered_date
    ++ " is not available with Dr. " ++ doctor_name
    ++ ". Please select from these available dates:\n\n"
    ++ renderDateOptions prettyDate date_options

/-- The format-or-selection retry reply of the `select_date` branch
(handle_booking.py, line 394). -/
def dateRetryReply (prettyDate : String → Option String)
    (date_options : List (String × String)) : String :=
  "Please select one of the available dates by entering its letter or in YYYY-MM-DD format:\n\n"
    ++ renderDateOptions prettyDate date_options

/-- The `select_date` branch of `_handle_booking` (handle_booking.py,
lines 290-394): accept a letter from the stored date options, or a
dash-with-three-parts literal that is one of the stored option values;
reject an unlisted literal or unrecognized input by re-listing the stored
options without touching the state. -/
def selectDateStep (doctors : DocMap) (appts : ApptMap)
    (prettyDate : String → Option String) (mem : MedicalChatMemory)
    (input_text : String) : String × MedicalChatMemory :=
  let bs := mem.booking_state
  let date_options := bs.date_options
  let doctor_id := bs.doctor_id.getD ""
  let doctor_name := doctorNameOf doctors doctor_id
  match alookup date_options (pyUpper (pyStrip input_text)) with
  | some d => dateChosen appts doctor_id doctor_name mem d
  | none =>
    if strContains input_text "-" && dashParts input_text == 3 then
      let entered_date := pyStrip input_text
      if (date_options.map (fun p => p.2)).contains entered_date then
        dateChosen appts doctor_id doctor_name mem entered_date
      else
        (unlistedDateReply prettyDate doctor_name entered_date date_options,
         mem)
    else
      (dateRetryReply prettyDate date_options, mem)

/-- Up to two leading digits (the greedy `\d{1,2}`; backtracking never
helps here because the following mandatory character is a colon, which is
not a digit). -/
def takeDigits12 : List Char → Option (List Char × List Char)
  | [] => none
  | c :: rest =>
    if c.isDigit then
      match rest with
      | d :: rest2 =>
        if d.isDigit then some ([c, d], rest2) else some ([c], rest)
      | [] => some ([c], [])
    else none

/-- Matches `\d{1,2}:\d{2}` at the front of the character list, returning
the matched text and the remainder. -/
def matchHHMM (s : List Char) : Option (List Char × List Char) :=
  match takeDigits12 s with
  | none => none
  | some (ds, r1) =>
    match r1 with
    | ':' :: a :: b :: r3 =>
      if a.isDigit && b.isDigit then some (ds ++ [':', a, b], r3) else none
    | _ => none

/-- The optional trailing meridian group `(AM|PM|am|pm)?`. -/
def matchAmPm : List Char → Option String
  | 'A' :: 'M' :: _ => some "AM"
  | 'P' :: 'M' :: _ => some "PM"
  | 'a' :: 'm' :: _ => some "am"
  | 'p' :: 'm' :: _ => some "pm"
  | _ => none

/-- The start-anchored regex
`(\d{1,2}:\d{2})-\d{1,2}:\d{2}\s*(AM|PM|am|pm)?` used by
`_reschedule_appointment` (test.py): returns group 1 and group 2 when the
pattern matches (trailing text is allowed, as with `re.match`). -/
def timeRangeMatch (s : String) : Option (String × Option String) :=
  match matchHHMM s.toList with
  | none => none
  | some (g1, r1) =>
    match r1 with
    | '-' :: r2 =>
      match matchHHMM r2 with
      | none => none
      | some (_, r3) =>
        some (String.mk g1, matchAmPm (r3.dropWhile isPySpace))
    | _ => none

/-- The `f"{start_time} {am_pm}".strip()` normalization of a time-range
string used by `_reschedule_appointment` for both the requested time and
each available slot; a string the regex does not match is kept as is. -/
def normalizeTimeRange (s : String) : String :=
  match timeRangeMatch s with
  | none => s
  | some (g1, ampm) =>
    match ampm with
    | some ap => g1 ++ " " ++ ap
    | none => g1

/-- The start-anchored `\d{4}-\d{2}-\d{2}` date-format check of
`_reschedule_appointment`. -/
def dateFormatOk (s : String) : Bool :=
  match s.toList with
  | y1 :: y2 :: y3 :: y4 :: '-' :: m1 :: m2 :: '-' :: d1 :: d2 :: _ =>
    y1.isDigit && y2.isDigit && y3.isDigit && y4.isDigit &&
      m1.isDigit && m2.isDigit && d1.isDigit && d2.isDigit
  | _ => false

/-- The slot-availability acceptance test of the reschedule write phase
(test.py, lines 1307-1330): the normalized requested time must occur among
the available slots (computed over all non-cancelled appointments,
including the one being moved) either verbatim or among their normalized
start times. -/
def rescheduleSlotOk (appts : ApptMap) (doctor_id new_date new_time : String) :
    Bool :=
  let time_to_check := normalizeTimeRange new_time
  let available_slots := get_available_slots appts doctor_id new_date none
  let normalized_available_slots := available_slots.map normalizeTimeRange
  available_slots.contains time_to_check ||
    normalized_available_slots.contains time_to_check

/-- Model of `MedicalChatbot._cancel_appointment` (test.py, lines 1072-1168),
in-memory effect: refuse a missing, already cancelled or past appointment,
otherwise flip its status to `"cancelled"` in place.  `isPast` is the
clock oracle for the date comparison; `ts` is `datetime.now().isoformat()`. -/
def cancel_appointment (doctors : DocMap) (appts : ApptMap)
    (appointment_id : String) (isPast : Bool) (ts : String) :
    String × ApptMap :=
  if appointment_id = "" then
    ("Invalid appointment ID. Please provide the appointment ID in the format APPT-YYYYMMDDHHMMSS.",
     appts)
  else
    match alookup appts appointment_id with
    | none =>
      ("No appointment found with ID " ++ appointment_id
         ++ ". Please check the ID and try again.", appts)
    | some a =>
      if a.status = "cancelled" then
        ("Appointment " ++ appointment_id ++ " has already been cancelled.",
         appts)
      else if isPast then
        ("Cannot cancel appointment " ++ appointment_id
           ++ " as it has already passed.", appts)
      else
        let doctor_name :=
          match alookup doctors a.doctor_id with
          | some d => d.name
          | none => "Unknown"
        ("Appointment Cancelled Successfully! ✅\n\n    Appointment ID: "
           ++ appointment_id ++ "\n    Patient: " ++ a.name
           ++ "\n    Doctor: " ++ doctor_name ++ "\n    Date: " ++ a.date
           ++ "\n    Time: " ++ a.time
           ++ "\n\n    Your appointment has been cancelled. If you wish to book a new appointment, please say \"book appointment\".\n    ",
         appts.map (cancelEntry appointment_id ts))

/-- The in-place date/time mutation of the reschedule write phase
(test.py, lines 1334-1337). -/
def rescheduleEntry (id new_date new_time ts : String)
    (p : String × Appointment) : String × Appointment :=
  if p.1 = id then
    (p.1, { p.2 with
        date := new_date, time := new_time,
        rescheduled := true, rescheduled_at := some ts })
  else p

/-- The available-dates prompt of the reschedule flow (test.py, line
1262). -/
def rescheduleDatesPrompt (doctor_name : String) (dates : List String) :
    String :=
  "Let" ++ aq ++ "s reschedule your appointment with " ++ doctor_name
    ++ ".\n\nAvailable dates are:" ++ "\n- "
    ++ String.intercalate "\n- " dates
    ++ "\n\nPlease provide a date in Y-M-D format."

/-- The `time_preference_options` list built from the two availability
halves (test.py, lines 1277-1282). -/
def prefOptions (morning evening : List String) : List String :=
  (if morning ≠ [] then ["morning"] else []) ++
    (if evening ≠ [] then ["evening"] else [])

/-- The time-preference prompt of the reschedule flow (test.py, lines
1293-1298): a yes/no confirmation when only one half is available, the
morning-or-evening question otherwise. -/
def reschedulePrefPrompt (doctor_name nd : String) (prefs : List String) :
    String :=
  if prefs.length = 1 then
    "🌞For your rescheduled appointment with " ++ doctor_name ++ " on "
      ++ nd ++ ", only " ++ prefs.headD ""
      ++ " slots are available. Is that okay? Please type "
      ++ aq ++ "yes" ++ aq ++ " or select another date."
  else
    "For your rescheduled appointment with " ++ doctor_name ++ " on " ++ nd
      ++ ", do you prefer a morning or evening slot? Please type "
      ++ aq ++ "morning" ++ aq ++ " or " ++ aq ++ "evening" ++ aq ++ "."

/-- Model of `MedicalChatbot._reschedule_appointment` (test.py, lines 1170-1392),
in-memory effect.  Three-phase: with neither a new date nor a new time it
starts the reschedule flow and lists available dates; with only a date it
stores the date and asks for a time preference; with both it checks the
slot with `rescheduleSlotOk` and mutates the appointment in place.
`isPast` is the clock oracle of the already-passed check and `ts` is
`datetime.now().isoformat()`. -/
def reschedule_appointment (doctors : DocMap) (dateOf : Nat → String)
    (isPast : Bool) (ts : String) (appts : ApptMap)
    (mem : MedicalChatMemory) (appointment_id : String)
    (new_date new_time : Option String) :
    String × ApptMap × MedicalChatMemory :=
  if appointment_id = "" then
    ("Invalid appointment ID. Please provide the appointment ID in the format APPT-YYYYMMDDHHMMSS.",
     appts, mem)
  else
    match alookup appts appointment_id with
    | none =>
      ("No appointment found with ID " ++ appointment_id
         ++ ". Please check the ID and try again.", appts, mem)
    | some a =>
      if a.status = "cancelled" then
        ("Appointment " ++ appointment_id
           ++ " has been cancelled and cannot be rescheduled. Please book a new appointment.",
         appts, mem)
      else if isPast then
        ("Cannot reschedule appointment " ++ appointment_id
           ++ " as it has already passed.", appts, mem)
      else if a.doctor_id = "" ∨ alookup doctors a.doctor_id = none then
        ("Error finding doctor information for appointment "
           ++ appointment_id ++ ". Please contact our office directly.",
         appts, mem)
      else
        let doctor_name :=
          match alookup doctors a.doctor_id with
          | some d => d.name
          | none => "Unknown"
        match new_date, new_time with
        | none, none =>
          let available_dates := get_available_dates appts a.doctor_id 7 dateOf
          if available_dates = [] then
            ("No available dates found for " ++ doctor_name
               ++ " in the next week. Please contact our office directly to reschedule.",
             appts, mem)
          else
            let mem1 := start_booking_flow ts mem
            let mem2 := { mem1 with booking_state :=
              { mem1.booking_state with
                  step := some "reschedule_date",
                  doctor_id := some a.doctor_id,
                  original_appointment_id := some appointment_id,
                  available_dates := available_dates } }
            (rescheduleDatesPrompt doctor_name available_dates, appts, mem2)
        | some nd, none =>
          if !dateFormatOk nd then
            ("Please provide the date in Y-M-D format (e.g., 2025-05-10).",
             appts, mem)
          else
            let morning := get_available_slots appts a.doctor_id nd (some "morning")
            let evening := get_available_slots appts a.doctor_id nd (some "evening")
            if morning = [] ∧ evening = [] then
              ("No available time slots found for " ++ doctor_name ++ " on "
                 ++ nd ++ ". Please select another date.", appts, mem)
            else
              let prefs := prefOptions morning evening
              let mem2 := { mem with booking_state :=
                { mem.booking_state with
                    step := some "reschedule_time_preference",
                    doctor_id := some a.doctor_id,
                    original_appointment_id := some appointment_id,
                    date := some nd,
                    time_preference_options := prefs } }
              (reschedulePrefPrompt doctor_name nd prefs, appts, mem2)
        | some nd, some nt =>
          if !dateFormatOk nd then
            ("Please provide the date in YYYY-MM-DD format (e.g., 2025-05-10).",
             appts, mem)
          else if !rescheduleSlotOk appts a.doctor_id nd nt then
            ("The slot at " ++ nt ++ " on " ++ nd
               ++ " is not available. Please select from: "
               ++ String.intercalate ", "
                 (get_available_slots appts a.doctor_id nd none),
             appts, mem)
          else
            ("Appointment Rescheduled Successfully! ✅\n\n    Appointment ID: "
               ++ appointment_id ++ "\n    Patient: " ++ a.name
               ++ "\n    Doctor: " ++ doctor_name ++ "\n    NEW Date: " ++ nd
               ++ "\n    NEW Time: " ++ nt
               ++ "\n\n    Your appointment has been rescheduled. We"
               ++ aq ++ "ll see you then!\n    ",
             appts.map (rescheduleEntry appointment_id nd nt ts),
             clear_booking_state mem)
        | none, some _ =>
          ("There was an error processing your rescheduling request. Please provide both a date (YYYY-MM-DD) and time, or contact our office directly.",
           appts, mem)

/-- Model of `MedicalDatabase.find_patient_id` (test.py, lines 246-251): first
patient whose name and phone both match exactly; empty-string sentinel. -/
def find_patient_id (patients : List (String × FieldMap))
    (name phone : String) : String :=
  match patients.find? (fun p =>
      alookup p.2 "name" == some name && alookup p.2 "phone" == some phone) with
  | some p => p.1
  | none => ""

/-- In-memory effect of `MedicalDatabase.add_patient`: insert or replace
the record under this id. -/
def add_patient (patients : List (String × FieldMap)) (patient_id : String)
    (pdata : FieldMap) : List (String × FieldMap) :=
  if containsKey patients patient_id then
    patients.map (fun p => if p.1 = patient_id then (patient_id, pdata) else p)
  else patients ++ [(patient_id, pdata)]

/-- Model of `MedicalDatabase.book_appointment` acting on the appointments table of
structured rows (the data dict assembled by the confirm step is never
empty, so only the id checks of the validation can fire). -/
def bookAppointmentRow (appts : ApptMap) (appointment_id : String)
    (a : Appointment) (sheetOk : Bool) : Bool × ApptMap :=
  if appointment_id = "" then (false, appts)
  else if containsKey appts appointment_id then (false, appts)
  else (sheetOk, appts ++ [(appointment_id, a)])

/-- The conflict message of the confirm-step availability re-check. -/
def conflictMessage : String :=
  "We" ++ aq ++ "re sorry, but this time slot has just been booked by another patient. Please start the booking process again."

/-- The `confirm` branch of `_handle_booking` (handle_booking.py, lines
500-595): take the message as the visit reason, re-validate name/phone and
doctor/date/time (clearing the state and aborting when missing), resolve
or mint the patient id, re-check the slot against the appointments table
immediately before the terminal write, and book on success.  `ts` stands
for the `datetime.now().strftime(...)` timestamp (used for the generated
`APPT-` and `patient_` ids). -/
def confirmStep (doctors : DocMap) (patients : List (String × FieldMap))
    (appts : ApptMap) (mem : MedicalChatMemory) (input_text ts : String)
    (sheetOk : Bool) :
    String × ApptMap × List (String × FieldMap) × MedicalChatMemory :=
  let reason := pyStrip input_text
  let bs := mem.booking_state
  let mem1 := { mem with booking_state :=
    { bs with reason := some reason, step := some "complete" } }
  let appointment_id := "APPT-" ++ ts
  let name := bs.name.getD ""
  let phone := bs.phone.getD ""
  if name = "" ∨ phone = "" then
    ("Missing patient information. Booking process has been reset. Please try again by asking to book an appointment.",
     appts, patients, clear_booking_state mem1)
  else
    let pid0 := mem1.current_patient_id.getD ""
    let found := if pid0 = "" then find_patient_id patients name phone else pid0
    let minted := found = ""
    let patient_id := if minted then "patient_" ++ ts else found
    let patients2 :=
      if minted then
        add_patient patients patient_id [("name", name), ("phone", phone)]
      else patients
    let mem2 :=
      if minted then { mem1 with current_patient_id := some patient_id }
      else mem1
    let a : Appointment :=
      { doctor_id := bs.doctor_id.getD "", date := bs.date.getD "",
        time := bs.time.getD "", status := "confirmed",
        patient_id := patient_id, reason := reason, name := name,
        phone := phone, specialty := bs.selected_specialty.getD "" }
    if a.doctor_id = "" ∨ a.date = "" ∨ a.time = "" then
      ("Missing appointment details. Booking process has been reset. Please try again by asking to book an appointment.",
       appts, patients2, clear_booking_state mem2)
    else if slotBooked appts a.doctor_id a.date a.time then
      (conflictMessage, appts, patients2, clear_booking_state mem2)
    else
      let booked := bookAppointmentRow appts appointment_id a sheetOk
      if !booked.1 then
        ("System error: Unable to save appointment. Please try again later or contact our office directly.",
         booked.2, patients2, clear_booking_state mem2)
      else
        let doctor_name :=
          match alookup doctors a.doctor_id with
          | some d => d.name
          | none => ""
        ("Appointment Successfully Booked!🎉 \n\n    Appointment ID: "
           ++ appointment_id ++ "\n    Patient: " ++ name ++ "\n    Doctor: "
           ++ doctor_name ++ " \n    Specialty: " ++ a.specialty
           ++ "\n    Date: " ++ a.date ++ "\n    Time: " ++ a.time
           ++ "\n    Phone: " ++ phone ++ "\n    Reason: " ++ reason
           ++ "\n\n    Thank you for booking with us. You will receive a confirmation text message shortly. If you need to reschedule or cancel, please contact us and reference your Appointment ID.",
         booked.2, patients2, clear_booking_state mem2)

/-- Conflict test for a pair of table rows: both non-cancelled and on the
same (doctor_id, date, time) triple. -/
def conflicting (p q : String × Appointment) : Bool :=
  p.2.status != "cancelled" && q.2.status != "cancelled" &&
    p.2.doctor_id == q.2.doctor_id && p.2.date == q.2.date &&
    p.2.time == q.2.time

/-- The no-double-booking invariant: no two distinct rows of the
appointments table are non-cancelled with the same
(doctor_id, date, time). -/
def NoDoubleBooking (appts : ApptMap) : Prop :=
  appts.Pairwise (fun p q => conflicting p q = false)

instance (appts : ApptMap) : Decidable (NoDoubleBooking appts) :=
  inferInstanceAs (Decidable (appts.Pairwise (fun p q => conflicting p q = false)))

/-- Appointment-table states reachable through the chatbot's operations:
a successful confirm-step booking (whose persisted row is `"confirmed"`,
has a time selected from the slot catalog, passed the final availability
re-check and got a fresh id), a cancellation, and a reschedule (any phase,
with any clock readings and conversation memory). -/
inductive Reachable (doctors : DocMap) : ApptMap → Prop
  | init : Reachable doctors []
  | book (s : ApptMap) (id : String) (a : Appointment) :
      Reachable doctors s →
      a.status = "confirmed" →
      a.time ∈ slotCatalog none →
      slotBooked s a.doctor_id a.date a.time = false →
      containsKey s id = false →
      Reachable doctors (s ++ [(id, a)])
  | cancel (s : ApptMap) (id : String) (isPast : Bool) (ts : String) :
      Reachable doctors s →
      Reachable doctors (cancel_appointment doctors s id isPast ts).2
  | resched (s : ApptMap) (mem : MedicalChatMemory) (dateOf : Nat → String)
      (isPast : Bool) (ts id : String) (nd nt : Option String) :
      Reachable doctors s →
      Reachable doctors
        (reschedule_appointment doctors dateOf isPast ts s mem id nd nt).2.1

/-- Appointment-table states reachable through bookings and cancellations
only (no reschedule). -/
inductive ReachableBC (doctors : DocMap) : ApptMap → Prop
  | init : ReachableBC doctors []
  | book (s : ApptMap) (id : String) (a : Appointment) :
      ReachableBC doctors s →
      a.status = "confirmed" →
      a.time ∈ slotCatalog none →
      slotBooked s a.doctor_id a.date a.time = false →
      containsKey s id = false →
      ReachableBC doctors (s ++ [(id, a)])
  | cancel (s : ApptMap) (id : String) (isPast : Bool) (ts : String) :
      ReachableBC doctors s →
      ReachableBC doctors (cancel_appointment doctors s id isPast ts).2

/-- Python runtime exceptions that the modelled control flow can raise. -/
inductive PyErr
  | typeErr
  | nameErr
deriving DecidableEq

/-- The four reset keywords of `process_message`. -/
def resetKeywords : List String := ["reset", "clear memory", "restart", "clear cache"]

/-- The greeting keyword list of `MedicalChatbot.is_greeting`. -/
def greetingsList : List String :=
  ["hi", "hello", "hey", "greetings", "good morning", "good afternoon",
   "good evening", "howdy", "hi there", "hello there", "namaste"]

/-- Model of `MedicalChatbot.is_greeting` (test.py, lines 1641-1649). -/
def is_greeting (message : String) : Bool :=
  let m := pyStrip (pyLower message)
  greetingsList.any (fun g => pyStartsWith m g || m == g)

/-- Sixteen spaces, the indentation of the greeting template literal. -/
def ind16 : String := "                "

/-- The canned greeting of `MedicalPromptManager` (test.py, lines
94-108), formatted with no variables. -/
def greetingPrompt : String :=
  "\n" ++ ind16 ++ "🏥 *Welcome to Apple Hospital* 🏥\n\n" ++ ind16
    ++ "I" ++ aq
    ++ "m your dedicated Medical Assistant, here to help you with all your healthcare needs. I can assist you with:\n\n"
    ++ ind16 ++ "• Booking appointments with our specialists\n" ++ ind16
    ++ "• Providing information about medical procedures\n" ++ ind16
    ++ "• Answering general health questions\n" ++ ind16
    ++ "• Managing your patient information\n\n" ++ ind16
    ++ "How may I assist you today? If you" ++ aq
    ++ "re looking to schedule an appointment or have medical queries, I"
    ++ aq ++ "m here to help!\n" ++ ind16

/-- The `try`-body of `MedicalChatbot.process_message` (test.py, lines
1441-1630) up to and including the unconditional `phone = phone[2:]`
slice: the reset keywords, the booking-cancel keywords and greetings
return before the slice; every other message reaches the slice, which on a
`None` phone raises `TypeError`.  Everything after the slice (the
dispatch to cancel/reschedule/booking/view/agent) is the continuation
parameter `rest`, which receives the sliced phone. -/
def process_message_body
    (rest : String → Option String → MedicalChatMemory →
      (Except PyErr String) × MedicalChatMemory)
    (mem : MedicalChatMemory) (message : String) (phone : Option String) :
    (Except PyErr String) × MedicalChatMemory :=
  if resetKeywords.contains (pyStrip (pyLower message)) then
    (Except.ok "Memory has been cleared. Starting fresh conversation.",
     clear_memory mem)
  else if ["cancel booking", "stop booking"].contains (pyStrip (pyLower message)) then
    (Except.ok "Booking process canceled. How else can I help you today?",
     clear_booking_state mem)
  else if is_greeting message then
    (Except.ok greetingPrompt, mem)
  else
    match phone with
    | none => (Except.error PyErr.typeErr, mem)
    | some p =>
      let p1 := if pyStartsWith p "+" then p.drop 1 else p
      rest message (some (p1.drop 2)) mem

/-- Model of `MedicalChatbot.process_message` with its top-level `except` handler.
The handler prints and then calls `traceback.print_exc()`, but `test.py`
never imports `traceback`, so the handler raises `NameError` before it
reaches the lines that would clear the booking state and return an error
message; the memory is left as the failing body left it. -/
def process_message
    (rest : String → Option String → MedicalChatMemory →
      (Except PyErr String) × MedicalChatMemory)
    (mem : MedicalChatMemory) (message : String) (phone : Option String) :
    (Except PyErr String) × MedicalChatMemory :=
  match process_message_body rest mem message phone with
  | (Except.ok r, m2) => (Except.ok r, m2)
  | (Except.error _, m2) => (Except.error PyErr.nameErr, m2)

/-- The sample doctors table seeded by `MedicalDatabase.__init__`
(test.py, lines 158-160). -/
def demoDoctors : DocMap :=
  [("dr_batra", { name := "Dr. Batra", specialty := "General Practice" }),
   ("dr_shah", { name := "Dr. Shah", specialty := "Cardiology" }),
   ("dr_momin", { name := "Dr. Momin", specialty := "Pediatrics" })]

/-- A confirmed appointment in the first catalog slot, used by concrete
scenarios. -/
def demoAppt : Appointment :=
  { doctor_id := "dr_batra", date := "2099-01-02",
    time := "10:45-11:00 AM", status := "confirmed" }

/-- Scenario state: `demoAppt` booked under a fresh id. -/
def c1s1 : ApptMap := [("APPT-20990101010101", demoAppt)]

/-- Scenario state after rescheduling the first appointment to the plain
start time `"11:00 AM"` (accepted through the normalized slot list). -/
def c1s2 : ApptMap :=
  (reschedule_appointment demoDoctors (fun _ => "") false "ts" c1s1 {}
    "APPT-20990101010101" (some "2099-01-02") (some "11:00 AM")).2.1

/-- Scenario state after booking a second appointment in the again-free
first slot. -/
def c1s3 : ApptMap := c1s2 ++ [("APPT-20990101010102", demoAppt)]

/-- Scenario state after rescheduling the second appointment to the same
plain start time: two confirmed appointments on one triple. -/
def c1s4 : ApptMap :=
  (reschedule_appointment demoDoctors (fun _ => "") false "ts" c1s3 {}
    "APPT-20990101010102" (some "2099-01-02") (some "11:00 AM")).2.1

/-! ## Availability-computation lemmas and Claim C2 -/

theorem mem_get_available_slots {appts : ApptMap} {d dt s : String}
    {pref : Option String} :
    s ∈ get_available_slots appts d dt pref ↔
      s ∈ slotCatalog pref ∧ s ∉ bookedTimes appts d dt := by
  simp [get_available_slots, List.mem_filter]

theorem bookedTimes_book_subset {s : ApptMap} {q : String × Appointment}
    {d dt x : String} (hx : x ∈ bookedTimes (s ++ [q]) d dt) :
    x ∈ bookedTimes s d dt ∨ x = q.2.time := by
  simp only [bookedTimes, List.filter_append, List.map_append,
    List.mem_append] at hx
  rcases hx with h | h
  · exact Or.inl h
  · right
    rcases List.mem_map.mp h with ⟨p, hp, rfl⟩
    rcases List.mem_filter.mp hp with ⟨hmem, -⟩
    simp only [List.mem_singleton] at hmem
    rw [hmem]

theorem bookedTimes_cancel_subset {s : ApptMap} {id ts d dt x : String}
    (hx : x ∈ bookedTimes (s.map (cancelEntry id ts)) d dt) :
    x ∈ bookedTimes s d dt := by
  simp only [bookedTimes, List.mem_map, List.mem_filter] at hx ⊢
  rcases hx with ⟨p, ⟨hp, hpred⟩, rfl⟩
  rcases hp with ⟨q, hq, rfl⟩
  by_cases hid : q.1 = id
  · simp [cancelEntry, hid] at hpred
  · have he : cancelEntry id ts q = q := by simp [cancelEntry, hid]
    rw [he] at hpred ⊢
    exact ⟨q, ⟨hq, hpred⟩, rfl⟩

theorem history_booked_subset {s : ApptMap} (h : BookCancelHistory s) :
    ∀ d dt x, x ∈ bookedTimes s d dt → x ∈ slotCatalog none := by
  induction h with
  | nil => intro d dt x hx; simp [bookedTimes] at hx
  | book s id a hs hmem hst ih =>
    intro d dt x hx
    rcases bookedTimes_book_subset hx with h1 | h2
    · exact ih _ _ _ h1
    · rw [h2]
      exact (mem_get_available_slots.mp hmem).1
  | cancel s id ts hs ih =>
    intro d dt x hx
    exact ih _ _ _ (bookedTimes_cancel_subset hx)

/-- Claim C2: for any history of bookings and cancellations, the computed
available slots equal the fixed slot catalog (restricted by the
preference) minus the booked times of that doctor and date, preserving
catalog order; membership is characterized by catalog membership plus
non-bookedness; the available and booked sets are disjoint; and (with no
preference) their union is exactly the full catalog. -/
theorem c2_available_slots_correct (appts : ApptMap) (d dt : String)
    (pref : Option String) (hist : BookCancelHistory appts) :
    get_available_slots appts d dt pref =
        (slotCatalog pref).filter
          (fun s => !((bookedTimes appts d dt).contains s))
      ∧ List.Sublist (get_available_slots appts d dt pref) (slotCatalog pref)
      ∧ (∀ s, s ∈ get_available_slots appts d dt pref ↔
          s ∈ slotCatalog pref ∧ s ∉ bookedTimes appts d dt)
      ∧ (∀ s, ¬(s ∈ get_available_slots appts d dt pref ∧
          s ∈ bookedTimes appts d dt))
      ∧ (∀ s, s ∈ slotCatalog none ↔
          (s ∈ get_available_slots appts d dt none ∨
            s ∈ bookedTimes appts d dt)) := by
  refine ⟨rfl, List.filter_sublist _, fun s => mem_get_available_slots, ?_, ?_⟩
  · intro s hs
    exact (mem_get_available_slots.mp hs.1).2 hs.2
  · intro s
    constructor
    · intro hs
      by_cases hb : s ∈ bookedTimes appts d dt
      · exact Or.inr hb
      · exact Or.inl (mem_get_available_slots.mpr ⟨hs, hb⟩)
    · intro hs
      rcases hs with h | h
      · exact (mem_get_available_slots.mp h).1
      · exact history_booked_subset hist d dt s h

/-- Witness for C2: a one-booking history, with the availability computed
at it. -/
theorem c2_witness :
    BookCancelHistory c1s1 ∧
      get_available_slots c1s1 "dr_batra" "2099-01-02" none =
        ["11:00-11:15 AM", "11:15-11:30 AM", "1:45-2:00 PM", "2:00-2:15 PM",
         "2:15-2:30 PM"] := by
  have hh : BookCancelHistory c1s1 := by
    have h := BookCancelHistory.book [] "APPT-20990101010101" demoAppt
      BookCancelHistory.nil (by decide) (by decide)
    simpa [c1s1] using h
  refine ⟨hh, ?_⟩
  have h := (c2_available_slots_correct c1s1 "dr_batra" "2099-01-02" none hh).1
  rw [h]
  decide

/-! ## Date-scan lemmas and Claim C5 -/

theorem gadAux_eq (appts : ApptMap) (did : String) (dateOf : Nat → String) :
    ∀ (n i : Nat) (acc : List String), acc.length < 3 →
      gadAux appts did dateOf i n acc =
        acc ++ (((List.range' i n).map dateOf).filter
          (fun d => !(get_available_slots appts did d none).isEmpty)).take
            (3 - acc.length) := by
  intro n
  induction n with
  | zero => intro i acc h; simp [gadAux]
  | succ n ih =>
    intro i acc hlen
    rw [List.range'_succ, List.map_cons]
    cases hE : (get_available_slots appts did (dateOf i) none).isEmpty with
    | true =>
      have hstep : gadAux appts did dateOf i (n + 1) acc =
          gadAux appts did dateOf (i + 1) n acc := by
        simp [gadAux, hE]
      have hcond : (fun d => !(get_available_slots appts did d none).isEmpty)
          (dateOf i) = false := by simp [hE]
      rw [hstep, ih (i + 1) acc hlen, List.filter_cons_of_neg (by simp [hE])]
    | false =>
      have hcond : (!(get_available_slots appts did (dateOf i) none).isEmpty)
          = true := by simp [hE]
      have hstep : gadAux appts did dateOf i (n + 1) acc =
          (if 3 ≤ (acc ++ [dateOf i]).length then acc ++ [dateOf i]
           else gadAux appts did dateOf (i + 1) n (acc ++ [dateOf i])) := by
        simp [gadAux, hE]
      obtain ⟨k, hk⟩ : ∃ k, 3 - acc.length = k + 1 :=
        ⟨3 - acc.length - 1, by omega⟩
      rw [hstep, List.filter_cons_of_pos (by simp [hE]), hk,
        List.take_succ_cons]
      by_cases h3 : 3 ≤ (acc ++ [dateOf i]).length
      · have hlen2 : acc.length = 2 := by
          simp only [List.length_append, List.length_singleton] at h3
          omega
        have hk0 : k = 0 := by omega
        rw [if_pos h3, hk0, List.take_zero]
      · have hlen2 : (acc ++ [dateOf i]).length < 3 := by omega
        have hsub : 3 - (acc ++ [dateOf i]).length = k := by
          simp only [List.length_append, List.length_singleton]
          omega
        rw [if_neg h3, ih (i + 1) (acc ++ [dateOf i]) hlen2, hsub,
          List.append_assoc, List.singleton_append]

/-- Claim C5: the available-dates scan equals the horizon dates (one day
at a time, starting tomorrow) filtered by non-empty no-preference
availability and truncated to three; it is an order-preserving
subsequence of the horizon; every returned date qualifies; it is empty
when no horizon day qualifies; and for a doctor with zero existing
appointments it returns the first three horizon dates without erroring. -/
theorem c5_available_dates_correct (appts : ApptMap) (did : String)
    (days : Nat) (dateOf : Nat → String) :
    get_available_dates appts did days dateOf =
        (((List.range' 1 days).map dateOf).filter
          (fun d => !(get_available_slots appts did d none).isEmpty)).take 3
      ∧ List.Sublist (get_available_dates appts did days dateOf)
          ((List.range' 1 days).map dateOf)
      ∧ (∀ d ∈ get_available_dates appts did days dateOf,
          get_available_slots appts did d none ≠ [])
      ∧ ((∀ i ∈ List.range' 1 days,
            get_available_slots appts did (dateOf i) none = []) →
          get_available_dates appts did days dateOf = [])
      ∧ get_available_dates [] did days dateOf =
          ((List.range' 1 days).map dateOf).take 3 := by
  have h0 : get_available_dates appts did days dateOf =
      (((List.range' 1 days).map dateOf).filter
        (fun d => !(get_available_slots appts did d none).isEmpty)).take 3 := by
    have h := gadAux_eq appts did dateOf days 1 [] (by decide)
    simpa [get_available_dates] using h
  refine ⟨h0, ?_, ?_, ?_, ?_⟩
  · rw [h0]
    exact ((List.take_sublist _ _).trans (List.filter_sublist _))
  · intro d hd
    rw [h0] at hd
    have hd2 := List.mem_of_mem_take hd
    have := (List.mem_filter.mp hd2).2
    simpa [List.isEmpty_iff] using this
  · intro hall
    rw [h0]
    have hfil : ((List.range' 1 days).map dateOf).filter
        (fun d => !(get_available_slots appts did d none).isEmpty) = [] := by
      rw [List.filter_eq_nil_iff]
      intro d hd
      rcases List.mem_map.mp hd with ⟨i, hi, rfl⟩
      simp [hall i hi]
    rw [hfil, List.take_nil]
  · have h02 : get_available_dates [] did days dateOf =
        (((List.range' 1 days).map dateOf).filter
          (fun d => !(get_available_slots [] did d none).isEmpty)).take 3 := by
      have h := gadAux_eq [] did dateOf days 1 [] (by decide)
      simpa [get_available_dates] using h
    rw [h02]
    have hfil : ((List.range' 1 days).map dateOf).filter
        (fun d => !(get_available_slots [] did d none).isEmpty) =
        (List.range' 1 days).map dateOf :=
      List.filter_eq_self.mpr (fun a _ => rfl)
    rw [hfil]

/-- Witness for C5: the scan over a seven-day horizon against the
one-booking table collects the first three days, and over an empty
horizon (where no day qualifies, vacuously) it returns the empty list. -/
theorem c5_witness :
    get_available_dates c1s1 "dr_batra" 7
        (fun i => "2099-01-0" ++ toString i) =
        ["2099-01-01", "2099-01-02", "2099-01-03"]
      ∧ get_available_dates c1s1 "dr_batra" 0
          (fun i => "2099-01-0" ++ toString i) = [] := by
  constructor
  · have h := (c5_available_dates_correct c1s1 "dr_batra" 7
      (fun i => "2099-01-0" ++ toString i)).1
    rw [h]
    decide
  · exact (c5_available_dates_correct c1s1 "dr_batra" 0
      (fun i => "2099-01-0" ++ toString i)).2.2.2.1 (by decide)

/-! ## Repository book operation: Claims C6 and C10 -/

/-- Claim C6: `book_appointment` returns `False` (without raising) when
the id is already present or when the id or the data is empty; for a
fresh id with non-empty data (and a healthy sheet) it inserts the record
under that id and returns `True`. -/
theorem c6_book_appointment_validation :
    (∀ (m : List (String × FieldMap)) (id : String) (data : FieldMap)
        (ok : Bool),
      containsKey m id = true ∨ id = "" ∨ data = [] →
        book_appointment m id data ok = (false, m))
      ∧ (∀ (m : List (String × FieldMap)) (id : String) (data : FieldMap),
        containsKey m id = false → id ≠ "" → data ≠ [] →
          book_appointment m id data true = (true, m ++ [(id, data)])) := by
  constructor
  · intro m id data ok h
    rcases h with h | h | h <;> simp [book_appointment, h]
  · intro m id data h1 h2 h3
    simp [book_appointment, h1, h2, h3]

/-- Witness for C6: a duplicate id is refused, a fresh one inserted. -/
theorem c6_witness :
    book_appointment [("APPT-1", [("status", "confirmed")])] "APPT-1"
        [("status", "confirmed")] true =
        (false, [("APPT-1", [("status", "confirmed")])])
      ∧ book_appointment [] "APPT-2" [("status", "confirmed")] true =
        (true, [("APPT-2", [("status", "confirmed")])]) := by
  constructor
  · exact c6_book_appointment_validation.1 _ _ _ _ (Or.inl (by decide))
  · exact c6_book_appointment_validation.2 [] "APPT-2"
      [("status", "confirmed")] (by decide) (by decide) (by decide)

/-- Claim C10: when `book_appointment` refuses through one of its
validation branches, the in-memory appointments map is unchanged, because
both checks run before the insertion. -/
theorem c10_book_validation_no_mutation :
    ∀ (m : List (String × FieldMap)) (id : String) (data : FieldMap)
      (ok : Bool),
      id = "" ∨ data = [] ∨ containsKey m id = true →
        (book_appointment m id data ok).1 = false ∧
          (book_appointment m id data ok).2 = m := by
  intro m id data ok h
  rcases h with h | h | h <;> simp [book_appointment, h]

/-- Witness for C10: refusing an empty id leaves the table untouched. -/
theorem c10_witness :
    (book_appointment [("APPT-3", [("status", "confirmed")])] ""
        [("status", "x")] true).1 = false ∧
      (book_appointment [("APPT-3", [("status", "confirmed")])] ""
        [("status", "x")] true).2 =
        [("APPT-3", [("status", "confirmed")])] :=
  c10_book_validation_no_mutation _ _ _ _ (Or.inl rfl)

/-! ## Option indexer: Claim C3 -/

theorem letterFor_fix :
    ∀ i, i < 26 → pyUpper (pyStrip (letterFor i)) = letterFor i := by decide

theorem letterFor_inj :
    ∀ i, i < 26 → ∀ j, j < 26 → letterFor i = letterFor j → i = j := by decide

theorem alookup_buildOptions (vs : List String) :
    ∀ (off i : Nat), off + vs.length ≤ 26 → i < vs.length →
      alookup (buildOptions off vs) (letterFor (off + i)) = vs.get? i := by
  induction vs with
  | nil => intro off i h hi; simp at hi
  | cons v vs ih =>
    intro off i h hi
    cases i with
    | zero => simp [buildOptions, alookup]
    | succ n =>
      have hlen : off + (vs.length + 1) ≤ 26 := by
        simpa [List.length_cons] using h
      have hne : letterFor (off + (n + 1)) ≠ letterFor off := by
        intro he
        have h1 : off + (n + 1) < 26 := by
          have : n < vs.length := by simpa using Nat.lt_of_succ_lt_succ hi
          omega
        have h2 : off < 26 := by omega
        have := letterFor_inj _ h1 _ h2 he
        omega
      simp only [buildOptions, alookup, if_neg hne, List.get?_cons_succ]
      have harith : off + (n + 1) = (off + 1) + n := by omega
      rw [harith]
      exact ih (off + 1) n (by omega)
        (by simpa using Nat.lt_of_succ_lt_succ hi)

theorem find?_first {α : Type} (p : α → Bool) :
    ∀ (l : List α) (a : α),
      l.find? p = some a ↔
        ∃ j, l.get? j = some a ∧ p a = true ∧
          ∀ k, k < j → ∀ b, l.get? k = some b → p b = false := by
  intro l
  induction l with
  | nil => intro a; simp
  | cons x t ih =>
    intro a
    cases hx : p x with
    | true =>
      rw [List.find?_cons_of_pos _ hx]
      constructor
      · intro h
        injection h with h
        subst h
        exact ⟨0, rfl, hx, fun k hk b hb => absurd hk (by omega)⟩
      · rintro ⟨j, hget, hpa, hmin⟩
        cases j with
        | zero =>
          injection hget with h
          subst h
          rfl
        | succ n =>
          have := hmin 0 (by omega) x rfl
          rw [hx] at this
          cases this
    | false =>
      rw [List.find?_cons_of_neg _ (by simp [hx]), ih a]
      constructor
      · rintro ⟨j, hget, hpa, hmin⟩
        refine ⟨j + 1, by simpa using hget, hpa, ?_⟩
        intro k hk b hb
        cases k with
        | zero =>
          injection hb with hb
          subst hb
          exact hx
        | succ m => exact hmin m (by omega) b (by simpa using hb)
      · rintro ⟨j, hget, hpa, hmin⟩
        cases j with
        | zero =>
          injection hget with hg
          subst hg
          rw [hx] at hpa
          cases hpa
        | succ n =>
          exact ⟨n, by simpa using hget, hpa,
            fun k hk b hb => hmin (k + 1) (by omega) b (by simpa using hb)⟩

/-- Claim C3: for an option mapping built from at most 26 sorted values,
every generated letter (trimmed and uppercased first, as the resolver
does) resolves back to exactly the value at its position; when the letter
lookup fails, the resolver picks the first option in position order whose
display text occurs case-insensitively in the input; and when neither
matches, the `select_specialty` handler re-renders the same option list
from the stored state and leaves the memory unchanged. -/
theorem c3_option_indexer :
    (∀ (values : List String) (i : Nat) (h : i < values.length),
      values.length ≤ 26 →
        resolveOption (buildOptions 0 values) (letterFor i) =
          some (values.get ⟨i, h⟩))
      ∧ (∀ (options : List (String × String)) (input_text v : String),
        alookup options (pyUpper (pyStrip input_text)) = none →
          (resolveOption options input_text = some v ↔
            ∃ j q, options.get? j = some q ∧ q.2 = v ∧
              strContains (pyLower input_text) (pyLower q.2) = true ∧
              ∀ k, k < j → ∀ r, options.get? k = some r →
                strContains (pyLower input_text) (pyLower r.2) = false))
      ∧ (∀ (mem : MedicalChatMemory) (input_text : String),
        resolveOption mem.booking_state.specialty_options input_text = none →
          selectSpecialtyStep mem input_text =
            (specialtyRetryPrompt mem.booking_state.specialty_options, mem)) := by
  refine ⟨?_, ?_, ?_⟩
  · intro values i h h26
    have hi26 : i < 26 := lt_of_lt_of_le h h26
    unfold resolveOption
    rw [letterFor_fix i hi26]
    have hl := alookup_buildOptions values 0 i (by omega) h
    rw [Nat.zero_add] at hl
    rw [List.get?_eq_get h] at hl
    rw [hl]
  · intro options input_text v halk
    unfold resolveOption
    rw [halk]
    constructor
    · intro hsome
      rcases Option.map_eq_some'.mp hsome with ⟨q, hfind, hqv⟩
      rcases (find?_first _ options q).mp hfind with ⟨j, hget, hp, hmin⟩
      exact ⟨j, q, hget, hqv, hp, hmin⟩
    · rintro ⟨j, q, hget, hqv, hp, hmin⟩
      exact Option.map_eq_some'.mpr
        ⟨q, (find?_first _ options q).mpr ⟨j, hget, hp, hmin⟩, hqv⟩
  · intro mem input_text hres
    simp only [selectSpecialtyStep, hres]

/-- Witness for C3: letter `B` resolves to the second sorted specialty,
and an unmatchable input re-renders the stored options unchanged. -/
theorem c3_witness :
    resolveOption (buildOptions 0 ["Cardiology", "Neurology"]) (letterFor 1) =
        some "Neurology"
      ∧ selectSpecialtyStep
          { booking_state :=
              { specialty_options := buildOptions 0 ["Cardiology", "Neurology"] } }
          "zzz" =
        (specialtyRetryPrompt (buildOptions 0 ["Cardiology", "Neurology"]),
         { booking_state :=
             { specialty_options := buildOptions 0 ["Cardiology", "Neurology"] } }) := by
  constructor
  · have h := c3_option_indexer.1 ["Cardiology", "Neurology"] 1 (by decide)
      (by decide)
    rw [h]
    rfl
  · exact c3_option_indexer.2.2
      { booking_state :=
          { specialty_options := buildOptions 0 ["Cardiology", "Neurology"] } }
      "zzz" (by decide)

/-! ## Booking entry: Claim C4 -/

/-- Claim C4 (amended): the entry step resets any stale BookingState
unconditionally (its outcome is independent of the prior booking state
and flag), and when no specialty has a doctor with an available slot in
the scan horizon it returns the apology message — but it leaves the
freshly started BookingState behind: `is_booking_active` is `true` and
the booking state holds step `select_doctor`, not the empty state the
specification promises. -/
theorem c4_entry_reset_and_apology :
    (∀ (doctors : DocMap) (appts : ApptMap) (dateOf : Nat → String)
        (ts : String) (mem : MedicalChatMemory) (bs : BookingState) (b : Bool),
      bookingEntry doctors appts dateOf ts
          { mem with booking_state := bs, is_booking_active := b } =
        bookingEntry doctors appts dateOf ts mem)
      ∧ (∀ (doctors : DocMap) (appts : ApptMap) (dateOf : Nat → String)
          (ts : String) (mem : MedicalChatMemory),
        availableDoctors doctors appts dateOf = [] →
          bookingEntry doctors appts dateOf ts mem =
              (noAvailabilityApology,
               start_booking_flow ts (clear_booking_state mem))
            ∧ (bookingEntry doctors appts dateOf ts mem).2.is_booking_active =
                true
            ∧ (bookingEntry doctors appts dateOf ts
                mem).2.booking_state.step = some "select_doctor"
            ∧ (bookingEntry doctors appts dateOf ts mem).2.booking_state ≠
                emptyBookingState) := by
  constructor
  · intro doctors appts dateOf ts mem bs b
    rfl
  · intro doctors appts dateOf ts mem h
    have hmain : bookingEntry doctors appts dateOf ts mem =
        (noAvailabilityApology,
         start_booking_flow ts (clear_booking_state mem)) := by
      unfold bookingEntry
      rw [h]
      rfl
    refine ⟨hmain, ?_, ?_, ?_⟩ <;> rw [hmain]
    · rfl
    · rfl
    · intro he
      have hin := congrArg BookingState.in_progress he
      simp [start_booking_flow, emptyBookingState] at hin

/-- Witness for C4: a concrete no-doctors no-appointments state, with the
apology and the left-behind flow exhibited through the theorem. -/
theorem c4_witness :
    availableDoctors [] [] (fun _ => "") = [] ∧
      bookingEntry [] [] (fun _ => "") "t0" {} =
        (noAvailabilityApology,
         start_booking_flow "t0" (clear_booking_state {})) :=
  ⟨rfl, (c4_entry_reset_and_apology.2 [] [] (fun _ => "") "t0" {} rfl).1⟩

/-- Counterexample to C4 as stated: with no doctors, `"start"` yields the
apology while `is_booking_active` remains `true` and the booking state is
not empty — the claimed "no active BookingState behind" is false. -/
theorem c4_counterexample :
    (bookingEntry [] [] (fun _ => "") "t0" {}).1 = noAvailabilityApology
      ∧ (bookingEntry [] [] (fun _ => "") "t0" {}).2.is_booking_active = true
      ∧ (bookingEntry [] [] (fun _ => "") "t0" {}).2.booking_state ≠
          emptyBookingState := by
  exact ⟨rfl, rfl, by decide⟩

/-! ## Date-selection step: Claim C7 -/

/-- Claim C7: at `select_date`, a stored option letter or a
dash-formatted literal that is one of the stored available dates is
accepted and recorded verbatim (never substituted); a well-formatted but
unlisted date is rejected with the re-prompt listing the stored choices
and the memory — hence the step — unchanged; and unrecognized input
re-prompts likewise without touching the state. -/
theorem c7_select_date (doctors : DocMap) (appts : ApptMap)
    (pd : String → Option String) (mem : MedicalChatMemory)
    (input_text : String) :
    (∀ d, alookup mem.booking_state.date_options
        (pyUpper (pyStrip input_text)) = some d →
      (selectDateStep doctors appts pd mem
        input_text).2.booking_state.date = some d)
      ∧ (alookup mem.booking_state.date_options
            (pyUpper (pyStrip input_text)) = none →
          (strContains input_text "-" && dashParts input_text == 3) = true →
          (mem.booking_state.date_options.map (fun p => p.2)).contains
              (pyStrip input_text) = true →
          (selectDateStep doctors appts pd mem
            input_text).2.booking_state.date = some (pyStrip input_text))
      ∧ (alookup mem.booking_state.date_options
            (pyUpper (pyStrip input_text)) = none →
          (strContains input_text "-" && dashParts input_text == 3) = true →
          (mem.booking_state.date_options.map (fun p => p.2)).contains
              (pyStrip input_text) = false →
          selectDateStep doctors appts pd mem input_text =
            (unlistedDateReply pd
              (doctorNameOf doctors (mem.booking_state.doctor_id.getD ""))
              (pyStrip input_text) mem.booking_state.date_options, mem))
      ∧ (alookup mem.booking_state.date_options
            (pyUpper (pyStrip input_text)) = none →
          (strContains input_text "-" && dashParts input_text == 3) = false →
          selectDateStep doctors appts pd mem input_text =
            (dateRetryReply pd mem.booking_state.date_options, mem)) := by
  refine ⟨?_, ?_, ?_, ?_⟩
  · intro d h
    simp only [selectDateStep, h]
    simp only [dateChosen]
    split_ifs <;> rfl
  · intro h hc hm
    simp only [selectDateStep, h, hc, hm]
    simp only [if_true]
    simp only [dateChosen]
    split_ifs <;> rfl
  · intro h hc hm
    simp only [selectDateStep, h, hc, hm]
    rfl
  · intro h hc
    simp only [selectDateStep, h, hc]
    rfl

/-- Witness for C7: the letter `a` selects the first stored date, and a
well-formed but unlisted date is rejected with the stored options
re-listed and the memory unchanged. -/
theorem c7_witness :
    (selectDateStep demoDoctors [] (fun _ => none)
        { booking_state :=
            { date_options := [("A", "2099-01-02"), ("B", "2099-01-03")],
              doctor_id := some "dr_batra" } }
        "a").2.booking_state.date = some "2099-01-02"
      ∧ selectDateStep demoDoctors [] (fun _ => none)
          { booking_state :=
              { date_options := [("A", "2099-01-02"), ("B", "2099-01-03")],
                doctor_id := some "dr_batra" } }
          "2099-12-31" =
        (unlistedDateReply (fun _ => none) (doctorNameOf demoDoctors "dr_batra")
          "2099-12-31" [("A", "2099-01-02"), ("B", "2099-01-03")],
         { booking_state :=
             { date_options := [("A", "2099-01-02"), ("B", "2099-01-03")],
               doctor_id := some "dr_batra" } }) := by
  constructor
  · exact (c7_select_date demoDoctors [] (fun _ => none)
      { booking_state :=
          { date_options := [("A", "2099-01-02"), ("B", "2099-01-03")],
            doctor_id := some "dr_batra" } }
      "a").1 "2099-01-02" (by decide)
  · exact (c7_select_date demoDoctors [] (fun _ => none)
      { booking_state :=
          { date_options := [("A", "2099-01-02"), ("B", "2099-01-03")],
            doctor_id := some "dr_batra" } }
      "2099-12-31").2.2.1 (by decide) (by decide) (by decide)

/-! ## Reschedule: Claim C8 -/

theorem alookup_map_rescheduleEntry (id nd nt ts : String) :
    ∀ (l : ApptMap) (k : String),
      alookup (l.map (rescheduleEntry id nd nt ts)) k =
        (alookup l k).map (fun v =>
          if k = id then
            { v with date := nd, time := nt, rescheduled := true,
                     rescheduled_at := some ts }
          else v) := by
  intro l
  induction l with
  | nil => intro k; rfl
  | cons p rest ih =>
    intro k
    have hfst : (rescheduleEntry id nd nt ts p).1 = p.1 := by
      by_cases hid : p.1 = id <;> simp [rescheduleEntry, hid]
    by_cases hk : k = p.1
    · simp only [List.map_cons, alookup, hfst, if_pos hk]
      by_cases hid : p.1 = id
      · have hkid : k = id := hk.trans hid
        simp [rescheduleEntry, hid, hkid]
      · have hkid : ¬(k = id) := by rw [hk]; exact hid
        simp [rescheduleEntry, hid, hkid]
    · simp only [List.map_cons, alookup, hfst, if_neg hk]
      exact ih k

/-- Claim C8 (amended): reschedule is three-phase — with neither a new
date nor a new time it returns the available-dates prompt; with only a
date it stores the date and returns the time-preference prompt; with both
it validates the new slot against the availability of all non-cancelled
appointments, including the appointment being moved (the source does not
exclude it), and on success mutates exactly that appointment's date and
time in place, marking it rescheduled; cancelled and past appointments
are always refused unchanged. -/
theorem c8_reschedule_three_phase :
    (∀ (doctors : DocMap) (dateOf : Nat → String) (isPast : Bool)
        (ts : String) (appts : ApptMap) (mem : MedicalChatMemory)
        (id : String) (a : Appointment) (nd nt : Option String),
      id ≠ "" → alookup appts id = some a → a.status = "cancelled" →
        reschedule_appointment doctors dateOf isPast ts appts mem id nd nt =
          ("Appointment " ++ id
             ++ " has been cancelled and cannot be rescheduled. Please book a new appointment.",
           appts, mem))
      ∧ (∀ (doctors : DocMap) (dateOf : Nat → String) (ts : String)
          (appts : ApptMap) (mem : MedicalChatMemory) (id : String)
          (a : Appointment) (nd nt : Option String),
        id ≠ "" → alookup appts id = some a → a.status ≠ "cancelled" →
          reschedule_appointment doctors dateOf true ts appts mem id nd nt =
            ("Cannot reschedule appointment " ++ id
               ++ " as it has already passed.", appts, mem))
      ∧ (∀ (doctors : DocMap) (dateOf : Nat → String) (ts : String)
          (appts : ApptMap) (mem : MedicalChatMemory) (id : String)
          (a : Appointment) (d : DocInfo),
        id ≠ "" → alookup appts id = some a → a.status ≠ "cancelled" →
          a.doctor_id ≠ "" → alookup doctors a.doctor_id = some d →
          get_available_dates appts a.doctor_id 7 dateOf ≠ [] →
          reschedule_appointment doctors dateOf false ts appts mem id
              none none =
            (rescheduleDatesPrompt d.name
              (get_available_dates appts a.doctor_id 7 dateOf), appts,
             { start_booking_flow ts mem with booking_state :=
               { (start_booking_flow ts mem).booking_state with
                   step := some "reschedule_date",
                   doctor_id := some a.doctor_id,
                   original_appointment_id := some id,
                   available_dates :=
                     get_available_dates appts a.doctor_id 7 dateOf } }))
      ∧ (∀ (doctors : DocMap) (dateOf : Nat → String) (ts : String)
          (appts : ApptMap) (mem : MedicalChatMemory) (id : String)
          (a : Appointment) (d : DocInfo) (nd : String),
        id ≠ "" → alookup appts id = some a → a.status ≠ "cancelled" →
          a.doctor_id ≠ "" → alookup doctors a.doctor_id = some d →
          dateFormatOk nd = true →
          ¬(get_available_slots appts a.doctor_id nd (some "morning") = [] ∧
            get_available_slots appts a.doctor_id nd (some "evening") = []) →
          reschedule_appointment doctors dateOf false ts appts mem id
              (some nd) none =
            (reschedulePrefPrompt d.name nd
              (prefOptions
                (get_available_slots appts a.doctor_id nd (some "morning"))
                (get_available_slots appts a.doctor_id nd (some "evening"))),
             appts,
             { mem with booking_state :=
               { mem.booking_state with
                   step := some "reschedule_time_preference",
                   doctor_id := some a.doctor_id,
                   original_appointment_id := some id,
                   date := some nd,
                   time_preference_options :=
                     prefOptions
                       (get_available_slots appts a.doctor_id nd
                         (some "morning"))
                       (get_available_slots appts a.doctor_id nd
                         (some "evening")) } }))
      ∧ (∀ (doctors : DocMap) (dateOf : Nat → String) (ts : String)
          (appts : ApptMap) (mem : MedicalChatMemory) (id : String)
          (a : Appointment) (d : DocInfo) (nd nt : String),
        id ≠ "" → alookup appts id = some a → a.status ≠ "cancelled" →
          a.doctor_id ≠ "" → alookup doctors a.doctor_id = some d →
          dateFormatOk nd = true →
          rescheduleSlotOk appts a.doctor_id nd nt = true →
          (reschedule_appointment doctors dateOf false ts appts mem id
              (some nd) (some nt)).2.1 =
              appts.map (rescheduleEntry id nd nt ts)
            ∧ (reschedule_appointment doctors dateOf false ts appts mem id
                (some nd) (some nt)).2.2 = clear_booking_state mem
            ∧ alookup (reschedule_appointment doctors dateOf false ts appts
                mem id (some nd) (some nt)).2.1 id =
              some { a with date := nd, time := nt, rescheduled := true,
                            rescheduled_at := some ts }
            ∧ (∀ k, k ≠ id →
                alookup (reschedule_appointment doctors dateOf false ts
                  appts mem id (some nd) (some nt)).2.1 k =
                alookup appts k))
      ∧ (∀ (doctors : DocMap) (dateOf : Nat → String) (ts : String)
          (appts : ApptMap) (mem : MedicalChatMemory) (id : String)
          (a : Appointment) (d : DocInfo) (nd nt : String),
        id ≠ "" → alookup appts id = some a → a.status ≠ "cancelled" →
          a.doctor_id ≠ "" → alookup doctors a.doctor_id = some d →
          dateFormatOk nd = true →
          rescheduleSlotOk appts a.doctor_id nd nt = false →
          reschedule_appointment doctors dateOf false ts appts mem id
              (some nd) (some nt) =
            ("The slot at " ++ nt ++ " on " ++ nd
               ++ " is not available. Please select from: "
               ++ String.intercalate ", "
                 (get_available_slots appts a.doctor_id nd none),
             appts, mem)) := by
  refine ⟨?_, ?_, ?_, ?_, ?_, ?_⟩
  · intro doctors dateOf isPast ts appts mem id a nd nt hid ha hc
    simp only [reschedule_appointment, if_neg hid, ha, if_pos hc]
  · intro doctors dateOf ts appts mem id a nd nt hid ha hc
    simp only [reschedule_appointment, if_neg hid, ha, if_neg hc, if_pos]
  · intro doctors dateOf ts appts mem id a d hid ha hc hdid hdoc hdates
    have hnotnone : ¬(a.doctor_id = "" ∨ alookup doctors a.doctor_id = none) := by
      rw [hdoc]
      simp [hdid]
    simp only [reschedule_appointment, if_neg hid, ha, if_neg hc,
      Bool.false_eq_true, if_false, if_neg hnotnone, hdoc, if_neg hdates]
    rw [if_neg (show ¬(a.doctor_id = "" ∨ (some d : Option DocInfo) = none)
      from by simp [hdid])]
  · intro doctors dateOf ts appts mem id a d nd hid ha hc hdid hdoc hfmt hslots
    have hnotnone : ¬(a.doctor_id = "" ∨ alookup doctors a.doctor_id = none) := by
      rw [hdoc]
      simp [hdid]
    simp only [reschedule_appointment, if_neg hid, ha, if_neg hc,
      Bool.false_eq_true, if_false, if_neg hnotnone, hdoc, hfmt,
      Bool.not_true, if_neg hslots]
    rw [if_neg (show ¬(a.doctor_id = "" ∨ (some d : Option DocInfo) = none)
      from by simp [hdid])]
  · intro doctors dateOf ts appts mem id a d nd nt hid ha hc hdid hdoc hfmt hok
    have hnotnone : ¬(a.doctor_id = "" ∨ alookup doctors a.doctor_id = none) := by
      rw [hdoc]
      simp [hdid]
    have hres : (reschedule_appointment doctors dateOf false ts appts mem id
        (some nd) (some nt)).2.1 = appts.map (rescheduleEntry id nd nt ts) := by
      simp only [reschedule_appointment, if_neg hid, ha, if_neg hc,
        Bool.false_eq_true, if_false, if_neg hnotnone, hdoc, hfmt, hok,
        Bool.not_true]
      rw [if_neg (show ¬(a.doctor_id = "" ∨ (some d : Option DocInfo) = none)
        from by simp [hdid])]
    have hmem : (reschedule_appointment doctors dateOf false ts appts mem id
        (some nd) (some nt)).2.2 = clear_booking_state mem := by
      simp only [reschedule_appointment, if_neg hid, ha, if_neg hc,
        Bool.false_eq_true, if_false, if_neg hnotnone, hdoc, hfmt, hok,
        Bool.not_true]
      rw [if_neg (show ¬(a.doctor_id = "" ∨ (some d : Option DocInfo) = none)
        from by simp [hdid])]
    refine ⟨hres, hmem, ?_, ?_⟩
    · rw [hres, alookup_map_rescheduleEntry, ha]
      simp
    · intro k hk
      rw [hres, alookup_map_rescheduleEntry]
      cases alookup appts k with
      | none => rfl
      | some v => simp [hk]
  · intro doctors dateOf ts appts mem id a d nd nt hid ha hc hdid hdoc hfmt hok
    have hnotnone : ¬(a.doctor_id = "" ∨ alookup doctors a.doctor_id = none) := by
      rw [hdoc]
      simp [hdid]
    simp only [reschedule_appointment, if_neg hid, ha, if_neg hc,
      Bool.false_eq_true, if_false, if_neg hnotnone, hdoc, hfmt, hok,
      Bool.not_true, Bool.not_false, if_true]
    rw [if_neg (show ¬(a.doctor_id = "" ∨ (some d : Option DocInfo) = none)
      from by simp [hdid])]

/-- Counterexample to C8 as stated: rescheduling the table's only
appointment onto its own slot is rejected and the table left unchanged,
although the slot is free once the appointment being moved is excluded —
the validation does not exclude the appointment being moved. -/
theorem c8_counterexample :
    (reschedule_appointment demoDoctors (fun _ => "") false "ts" c1s1 {}
        "APPT-20990101010101" (some "2099-01-02")
        (some "10:45-11:00 AM")).2.1 = c1s1
      ∧ (reschedule_appointment demoDoctors (fun _ => "") false "ts" c1s1 {}
          "APPT-20990101010101" (some "2099-01-02")
          (some "10:45-11:00 AM")).1 =
        "The slot at 10:45-11:00 AM on 2099-01-02 is not available. Please select from: 11:00-11:15 AM, 11:15-11:30 AM, 1:45-2:00 PM, 2:00-2:15 PM, 2:15-2:30 PM"
      ∧ rescheduleSlotOk c1s1 "dr_batra" "2099-01-02" "10:45-11:00 AM" = false
      ∧ "10:45-11:00 AM" ∈ get_available_slots
          (c1s1.filter (fun p => !(p.1 == "APPT-20990101010101")))
          "dr_batra" "2099-01-02" none := by
  decide

/-- Witness for C8 (amended): moving the appointment to a free catalog
slot succeeds and mutates exactly that appointment in place. -/
theorem c8_witness :
    (reschedule_appointment demoDoctors (fun _ => "") false "ts2" c1s1 {}
        "APPT-20990101010101" (some "2099-01-02")
        (some "11:00-11:15 AM")).2.1 =
      c1s1.map (rescheduleEntry "APPT-20990101010101" "2099-01-02"
        "11:00-11:15 AM" "ts2")
    ∧ alookup (reschedule_appointment demoDoctors (fun _ => "") false "ts2"
        c1s1 {} "APPT-20990101010101" (some "2099-01-02")
        (some "11:00-11:15 AM")).2.1 "APPT-20990101010101" =
      some { demoAppt with date := "2099-01-02", time := "11:00-11:15 AM",
                           rescheduled := true,
                           rescheduled_at := some "ts2" } := by
  have h := c8_reschedule_three_phase.2.2.2.2.1 demoDoctors (fun _ => "")
    "ts2" c1s1 {} "APPT-20990101010101" demoAppt
    { name := "Dr. Batra", specialty := "General Practice" }
    "2099-01-02" "11:00-11:15 AM" (by decide) (by decide) (by decide)
    (by decide) (by decide) (by decide) (by decide)
  exact ⟨h.1, h.2.2.1⟩

/-! ## Top-level message processing with no phone: Claim C9 -/

/-- Claim C9 (amended): for every message that is not a reset keyword, a
booking-cancel keyword, or a greeting, a `process_message` call with no
phone reaches the unconditional `phone[2:]` slice, which raises
`TypeError` on `None`; the top-level handler then itself raises
`NameError` (because `traceback` is never imported), so the call raises
instead of returning either top-level error message, the BookingState is
left unchanged (not cleared), and no booking step can ever be advanced
over a channel that supplies no phone number. -/
theorem c9_process_message_none_phone
    (rest : String → Option String → MedicalChatMemory →
      (Except PyErr String) × MedicalChatMemory)
    (mem : MedicalChatMemory) (message : String)
    (h1 : resetKeywords.contains (pyStrip (pyLower message)) = false)
    (h2 : (["cancel booking", "stop booking"] : List String).contains
      (pyStrip (pyLower message)) = false)
    (h3 : is_greeting message = false) :
    process_message_body rest mem message none =
        (Except.error PyErr.typeErr, mem)
      ∧ process_message rest mem message none =
        (Except.error PyErr.nameErr, mem) := by
  have hbody : process_message_body rest mem message none =
      (Except.error PyErr.typeErr, mem) := by
    simp only [process_message_body, h1, h2, h3, Bool.false_eq_true,
      if_false]
  exact ⟨hbody, by simp only [process_message, hbody]⟩

/-- Witness for C9 (amended): a concrete ordinary message with no phone
raises rather than replying. -/
theorem c9_witness :
    process_message (fun _ _ m => (Except.ok "", m)) {}
        "tell me about x-ray" none =
      (Except.error PyErr.nameErr, {}) :=
  (c9_process_message_none_phone (fun _ _ m => (Except.ok "", m)) {}
    "tell me about x-ray" (by decide) (by decide) (by decide)).2

/-- Counterexample to C9 as stated: with an active booking and no phone,
the call does not return one of the two top-level error messages and does
not clear the BookingState — it raises `NameError` out of the handler,
leaving the memory untouched. -/
theorem c9_counterexample :
    process_message (fun _ _ m => (Except.ok "", m))
        { booking_state := { step := some "select_time" },
          is_booking_active := true }
        "what is this" none =
      (Except.error PyErr.nameErr,
       { booking_state := { step := some "select_time" },
         is_booking_active := true })
      ∧ (∀ s, (process_message (fun _ _ m => (Except.ok "", m))
          { booking_state := { step := some "select_time" },
            is_booking_active := true }
          "what is this" none).1 ≠ Except.ok s)
      ∧ (process_message (fun _ _ m => (Except.ok "", m))
          { booking_state := { step := some "select_time" },
            is_booking_active := true }
          "what is this" none).2.is_booking_active = true := by
  refine ⟨rfl, ?_, rfl⟩
  intro s h
  exact Except.noConfusion h

/-! ## No-double-booking invariant: Claim C1 -/

theorem conflicting_of_slotFree {s : ApptMap} {a : Appointment}
    {id : String}
    (hslot : slotBooked s a.doctor_id a.date a.time = false) :
    ∀ p ∈ s, conflicting p (id, a) = false := by
  intro p hp
  simp only [slotBooked, List.any_eq_false] at hslot
  have hf := hslot p hp
  rw [Bool.eq_false_iff]
  intro hc
  simp only [conflicting, Bool.and_eq_true, beq_iff_eq, bne_iff_ne] at hc
  apply hf
  simp only [Bool.and_eq_true, beq_iff_eq, bne_iff_ne]
  exact ⟨⟨⟨hc.1.1.2, hc.1.2⟩, hc.2⟩, hc.1.1.1.1⟩

theorem noDouble_map_cancel {s : ApptMap} (h : NoDoubleBooking s)
    (id ts : String) : NoDoubleBooking (s.map (cancelEntry id ts)) := by
  unfold NoDoubleBooking at h ⊢
  rw [List.pairwise_map]
  refine h.imp ?_
  intro p q hpq
  by_cases hpid : p.1 = id
  · simp [cancelEntry, hpid, conflicting]
  · by_cases hqid : q.1 = id
    · simp [cancelEntry, hpid, hqid, conflicting]
    · simpa [cancelEntry, hpid, hqid] using hpq

theorem cancel_appointment_snd (doctors : DocMap) (s : ApptMap)
    (id : String) (isPast : Bool) (ts : String) :
    (cancel_appointment doctors s id isPast ts).2 = s ∨
      (cancel_appointment doctors s id isPast ts).2 =
        s.map (cancelEntry id ts) := by
  unfold cancel_appointment
  by_cases h0 : id = ""
  · simp [h0]
  · simp only [h0, if_false]
    cases h1 : alookup s id with
    | none => left; rfl
    | some a =>
      by_cases h2 : a.status = "cancelled"
      · simp [h2]
      · cases isPast with
        | true => simp [h2]
        | false => simp [h2]

theorem reachableBC_noDouble {doctors : DocMap} {s : ApptMap}
    (h : ReachableBC doctors s) : NoDoubleBooking s := by
  induction h with
  | init => exact List.Pairwise.nil
  | book s id a hs hst hcat hslot hkey ih =>
    unfold NoDoubleBooking
    rw [List.pairwise_append]
    refine ⟨ih, List.pairwise_singleton _ _, ?_⟩
    intro p hp q hq
    rw [List.mem_singleton] at hq
    subst hq
    exact conflicting_of_slotFree hslot p hp
  | cancel s id isPast ts hs ih =>
    rcases cancel_appointment_snd doctors s id isPast ts with h | h
    · rw [h]; exact ih
    · rw [h]; exact noDouble_map_cancel ih id ts

/-- Claim C1 (amended): every appointment-table state reachable through
confirm-step bookings and cancellations alone satisfies the
no-double-booking invariant — the confirm step re-checks the slot
immediately before the terminal write, and on conflict returns the
conflict message, persists nothing, and clears the BookingState.  (The
reschedule operation, by contrast, can break the invariant; see the
counterexample.) -/
theorem c1_no_double_booking_amended :
    (∀ (doctors : DocMap) (s : ApptMap),
      ReachableBC doctors s → NoDoubleBooking s)
      ∧ (∀ (doctors : DocMap) (patients : List (String × FieldMap))
          (appts : ApptMap) (mem : MedicalChatMemory) (input ts : String)
          (ok : Bool),
        mem.booking_state.name.getD "" ≠ "" →
        mem.booking_state.phone.getD "" ≠ "" →
        mem.booking_state.doctor_id.getD "" ≠ "" →
        mem.booking_state.date.getD "" ≠ "" →
        mem.booking_state.time.getD "" ≠ "" →
        slotBooked appts (mem.booking_state.doctor_id.getD "")
            (mem.booking_state.date.getD "")
            (mem.booking_state.time.getD "") = true →
          (confirmStep doctors patients appts mem input ts ok).1 =
              conflictMessage
            ∧ (confirmStep doctors patients appts mem input ts ok).2.1 =
              appts
            ∧ (confirmStep doctors patients appts mem input ts
                ok).2.2.2.booking_state = emptyBookingState
            ∧ (confirmStep doctors patients appts mem input ts
                ok).2.2.2.is_booking_active = false) := by
  constructor
  · intro doctors s h
    exact reachableBC_noDouble h
  · intro doctors patients appts mem input ts ok hn hp hdid hdt htm hslot
    have hmain : ∀ (x : String × ApptMap × List (String × FieldMap) ×
        MedicalChatMemory), x = confirmStep doctors patients appts mem
          input ts ok →
        x.1 = conflictMessage ∧ x.2.1 = appts ∧
          x.2.2.2.booking_state = emptyBookingState ∧
          x.2.2.2.is_booking_active = false := by
      intro x hx
      simp only [confirmStep] at hx
      rw [if_neg (show ¬(mem.booking_state.name.getD "" = "" ∨
          mem.booking_state.phone.getD "" = "") from by
        simp [hn, hp])] at hx
      rw [if_neg (show ¬(mem.booking_state.doctor_id.getD "" = "" ∨
          mem.booking_state.date.getD "" = "" ∨
          mem.booking_state.time.getD "" = "") from by
        simp [hdid, hdt, htm])] at hx
      rw [if_pos hslot] at hx
      subst hx
      exact ⟨rfl, rfl, rfl, rfl⟩
    exact hmain _ rfl

/-- Witness for C1 (amended): a one-booking reachable state satisfies the
invariant, and a confirm step aimed at the already-taken slot returns the
conflict message. -/
theorem c1_witness :
    NoDoubleBooking c1s1
      ∧ (confirmStep demoDoctors [] c1s1
          { booking_state :=
              { name := some "Asha Rao", phone := some "5551234",
                doctor_id := some "dr_batra", date := some "2099-01-02",
                time := some "10:45-11:00 AM" },
            is_booking_active := true }
          "fever" "20990101010199" true).1 = conflictMessage := by
  constructor
  · apply c1_no_double_booking_amended.1 demoDoctors c1s1
    have h := @ReachableBC.book demoDoctors []
      "APPT-20990101010101" demoAppt ReachableBC.init (by decide)
      (by decide) (by decide) (by decide)
    simpa [c1s1] using h
  · exact (c1_no_double_booking_amended.2 demoDoctors [] c1s1
      { booking_state :=
          { name := some "Asha Rao", phone := some "5551234",
            doctor_id := some "dr_batra", date := some "2099-01-02",
            time := some "10:45-11:00 AM" },
        is_booking_active := true }
      "fever" "20990101010199" true (by decide) (by decide) (by decide)
      (by decide) (by decide) (by decide)).1

/-- Counterexample to C1 as stated: a repository state reachable through
two guarded bookings and two accepted reschedules holds two confirmed
appointments with the identical (doctor_id, date, time) triple — the
reschedule path (normalizing time ranges against plain start times)
defeats the invariant that the confirm-step re-check maintains. -/
theorem c1_counterexample :
    Reachable demoDoctors c1s4
      ∧ c1s4 =
        [("APPT-20990101010101",
          { demoAppt with time := "11:00 AM", rescheduled := true,
                          rescheduled_at := some "ts" }),
         ("APPT-20990101010102",
          { demoAppt with time := "11:00 AM", rescheduled := true,
                          rescheduled_at := some "ts" })]
      ∧ ¬ NoDoubleBooking c1s4 := by
  refine ⟨?_, by decide, by decide⟩
  have h1 : Reachable demoDoctors c1s1 := by
    have h := @Reachable.book demoDoctors []
      "APPT-20990101010101" demoAppt Reachable.init (by decide) (by decide)
      (by decide) (by decide)
    simpa [c1s1] using h
  have h2 : Reachable demoDoctors c1s2 :=
    Reachable.resched c1s1 {} (fun _ => "") false "ts"
      "APPT-20990101010101" (some "2099-01-02") (some "11:00 AM") h1
  have h3 : Reachable demoDoctors c1s3 :=
    Reachable.book c1s2 "APPT-20990101010102" demoAppt h2 (by decide)
      (by decide) (by decide) (by decide)
  exact Reachable.resched c1s3 {} (fun _ => "") false "ts"
    "APPT-20990101010102" (some "2099-01-02") (some "11:00 AM") h3
